import Mathlib

/-!
Shallow embedding of the air-quality repository: the ingestion /
normalization script (`data_prepare.py`) and the dashboard presentation
layer (`app.py`). Pure fragments of the Python code are translated into
executable Lean definitions; pandas tables become lists of records, and
the two regular-expression extractions become explicit leftmost-match
searches over character lists.
-/

namespace AirQuality

/-- ASCII uppercase test: the character class of letters A to Z used by
both regular expressions. -/
def isUpperAZ (c : Char) : Bool := decide ('A' ≤ c) && decide (c ≤ 'Z')

/-- ASCII digit test, modelling the digit class of the regular
expressions. (Python also admits non-ASCII decimal digits there; every
string this program feeds its regexes is ASCII.) -/
def isDigit09 (c : Char) : Bool := decide ('0' ≤ c) && decide (c ≤ '9')

/-- Leftmost-match search: try the fixed-shape matcher at every start
position from left to right, as Python re.search does, returning the
captured group of the first position that matches. -/
def reSearch (m : List Char → Option (List Char)) : List Char → Option (List Char)
  | [] => none
  | c :: cs =>
    match m (c :: cs) with
    | some r => some r
    | none => reSearch m cs

namespace DataPrepare

/-- One match attempt of the ingestion regex at the head of the list: a
literal dot, then the captured group, namely the literal letters DE, two
ASCII uppercase letters and three digits. Returns the captured group. -/
def prepMatchAt : List Char → Option (List Char)
  | '.' :: 'D' :: 'E' :: a :: b :: x :: y :: z :: _ =>
    if isUpperAZ a && isUpperAZ b && isDigit09 x && isDigit09 y && isDigit09 z then
      some (['D', 'E', a, b, x, y, z])
    else none
  | _ => none

/-- The ingestion script's station-identifier extraction
(data_prepare.py lines 85-91): search the raw station-code string for
the dot-anchored pattern, returning the captured group, or None when no
position matches. -/
def extract_station_id (s : String) : Option String :=
  (reSearch prepMatchAt s.toList).map String.mk

/-- The static Berlin station directory of data_prepare.py
(lines 96-102), as a lookup from short identifier to display name. -/
def station_names (sid : String) : Option String :=
  if sid = "DEBE010" then some "Amrumer Straße (Wedding, городской фон)"
  else if sid = "DEBE034" then some "Nansenstraße (Neukölln, городской фон)"
  else if sid = "DEBE051" then some "Buch / Hobrechtsfelder Chaussee (Pankow, пригородный фон)"
  else if sid = "DEBE065" then some "Frankfurter Allee (Friedrichshain, транспортная станция)"
  else if sid = "DEBE068" then some "Brückenstraße (Mitte, городской фон)"
  else none

/-- Does the subject list start with the pattern list? -/
def hasPre : List Char → List Char → Bool
  | [], _ => true
  | _ :: _, [] => false
  | p :: ps, c :: cs => p == c && hasPre ps cs

/-- Does the subject list contain the pattern list at some position? -/
def hasSub (pat : List Char) : List Char → Bool
  | [] => hasPre pat []
  | c :: cs => hasPre pat (c :: cs) || hasSub pat cs

/-- Lowercased character list of a string, modelling str.lower() on the
ASCII column names. -/
def lowerL (s : String) : List Char := s.toList.map Char.toLower

/-- The column-renaming rules of data_prepare.py lines 46-61, as the
per-column function the rename map induces: each rule tests the
lowercased name, the first matching rule wins, and a column matching no
rule keeps its name. -/
def renameCol (col : String) : String :=
  if hasPre ("samplingpoint".toList) (lowerL col) then "station"
  else if hasSub ("pollutant".toList) (lowerL col) then "pollutant"
  else if lowerL col = ("value".toList) then "value"
  else if lowerL col = ("start".toList) then "datetime_start"
  else if lowerL col = ("end".toList) then "datetime_end"
  else col

/-- One measurement record, with the columns of the combined table after
renaming. The value column holds the output of the numeric coercion of
line 75 (none = missing or unparseable); the interval start is the
parsed timestamp in epoch seconds (none = missing). Derived columns
start out empty. The derived year and month columns are left out: no
claim mentions them. -/
structure Row where
  station : String
  pollutant : String
  value : Option ℚ
  datetime_start : Option Nat
  date : Option Nat := none
  station_id : Option String := none
  station_name : Option String := none
  source_file : String := ""
deriving DecidableEq

/-- Read results of the table files found under the working directory:
each file comes with its name and either its rows (successful read,
tagged with the source filename) or none (the read raised; the file is
skipped with a printed warning, data_prepare.py lines 28-35). -/
def dfs (files : List (String × Option (List Row))) : List (List Row) :=
  files.filterMap fun p => p.2.map (List.map fun r => { r with source_file := p.1 })

/-- Lines 37-40: abort with a fatal message when no file could be read,
else concatenate every loaded table into one, ignoring original row
indices. -/
def loadAll (files : List (String × Option (List Row))) : Except String (List Row) :=
  if (dfs files).isEmpty then .error "Не удалось прочитать ни одного parquet-файла"
  else .ok (dfs files).flatten

/-- Lines 64-68: parse the interval start and derive the calendar date
(epoch day of the epoch-second timestamp); a missing start gives a
missing date, as to_datetime turns missing input into NaT. -/
def addDates (r : Row) : Row := { r with date := r.datetime_start.map (· / 86400) }

/-- The value-cleaning predicate of line 78: keep a row iff its value is
present and lies in the closed interval from 0 to 500; pandas
comparisons against a missing value are false, so missing-value rows
are dropped. -/
def valueOkB : Option ℚ → Bool
  | some v => decide (0 ≤ v) && decide (v ≤ 500)
  | none => false

/-- Lines 93 and 104: derive the short station identifier from the raw
station code and map it through the directory; the ingestion side
leaves unmapped identifiers with a missing name. -/
def addStation (r : Row) : Row :=
  let sid := extract_station_id r.station
  { r with station_id := sid, station_name := sid.bind station_names }

/-- The row-level ingestion pipeline on the combined table: date
derivation, value cleaning, station derivation, in source order
(data_prepare.py lines 64-104). -/
def ingest (rows : List Row) : List Row :=
  ((rows.map addDates).filter fun r => valueOkB r.value).map addStation

/-- The identity of a row as it entered the pipeline: the columns the
input supplied, derived columns excluded. -/
def core (r : Row) : String × String × Option ℚ × Option Nat × String :=
  (r.station, r.pollutant, r.value, r.datetime_start, r.source_file)

/-- Decimal digit character. -/
def digChar : Nat → Char
  | 0 => '0'
  | 1 => '1'
  | 2 => '2'
  | 3 => '3'
  | 4 => '4'
  | 5 => '5'
  | 6 => '6'
  | 7 => '7'
  | 8 => '8'
  | _ => '9'

/-- Value of a decimal digit character. -/
def digVal : Char → Nat
  | '0' => 0
  | '1' => 1
  | '2' => 2
  | '3' => 3
  | '4' => 4
  | '5' => 5
  | '6' => 6
  | '7' => 7
  | '8' => 8
  | _ => 9

/-- Most-significant-first decimal digits of a number; zero renders
empty here and is given its digit in natToChars. -/
def natChars : Nat → List Char
  | 0 => []
  | n + 1 => natChars ((n + 1) / 10) ++ [digChar ((n + 1) % 10)]
decreasing_by exact Nat.div_lt_self (Nat.succ_pos n) (by norm_num)

/-- Decimal rendering of a number as a cell content. -/
def natToChars (n : Nat) : List Char := if n = 0 then ['0'] else natChars n

/-- Parse a run of decimal digit characters, most significant first. -/
def decodeNat (l : List Char) : Nat := l.foldl (fun a c => a * 10 + digVal c) 0

/-- CSV cell for the value column: a rational rendered as numerator and
denominator split by a slash, the empty cell for a missing value, as
pandas writes NaN. The on-disk file renders a decimal float instead;
the round-trip claim compares the two outputs modulo type
representation, so any injective textual rendering of the number models
the cell faithfully. -/
def csvCellVal : Option ℚ → List Char
  | none => []
  | some v => natToChars v.num.toNat ++ '/' :: natToChars v.den

/-- CSV cell for a date column: the decimal day number, empty when
missing. -/
def csvCellNat : Option Nat → List Char
  | none => []
  | some n => natToChars n

/-- CSV cell for a text column: the text itself, empty when missing. -/
def csvCellStr : Option String → List Char
  | none => []
  | some s => s.toList

/-- One CSV record of the combined table (data.to_csv, line 114): the
cells of the persisted columns in column order. Cells stay separate
strings; the quoting and comma-joining of the concrete format is
exactly the type representation the round-trip claim mods out. -/
def toCsvRow (r : Row) : List (List Char) :=
  [r.station.toList, r.pollutant.toList, csvCellVal r.value, csvCellNat r.datetime_start,
   csvCellNat r.date, csvCellStr r.station_id, csvCellStr r.station_name, r.source_file.toList]

/-- The delimited-text output of line 114. -/
def to_csv (t : List Row) : List (List (List Char)) := t.map toCsvRow

/-- The columnar output of line 113: the columnar format stores the
table with its types, so the file holds the typed rows themselves. -/
def to_parquet (t : List Row) : List Row := t

/-- Read a date cell back: the empty cell is a missing date. -/
def decodeOptNat : List Char → Option Nat
  | [] => none
  | c :: cs => some (decodeNat (c :: cs))

/-- Read a text cell back: pandas reads the empty cell as missing. -/
def decodeOptStr : List Char → Option String
  | [] => none
  | c :: cs => some (String.mk (c :: cs))

/-- Read a value cell back: split at the slash and rebuild the
rational. -/
def decodeVal : List Char → Option ℚ
  | [] => none
  | c :: cs =>
    some (((decodeNat ((c :: cs).takeWhile fun d => d != '/') : ℚ)) /
      (decodeNat (((c :: cs).dropWhile fun d => d != '/').drop 1) : ℚ))

/-- The (station_id, date, value) triple recovered from one CSV
record. -/
def csvTriple (cells : List (List Char)) : Option String × Option Nat × Option ℚ :=
  (decodeOptStr (cells.getD 5 []), decodeOptNat (cells.getD 4 []), decodeVal (cells.getD 2 []))

/-- Loading the text output and projecting the triples of the
round-trip claim. -/
def read_csv_triples (f : List (List (List Char))) :
    List (Option String × Option Nat × Option ℚ) :=
  f.map csvTriple

/-- Loading the columnar output and projecting the same triples. -/
def read_parquet_triples (f : List Row) : List (Option String × Option Nat × Option ℚ) :=
  f.map fun r => (r.station_id, r.date, r.value)

end DataPrepare

namespace App

/-- One match attempt of the presentation regex at the head of the list:
an underscore, the captured group (DE, two uppercase letters, three
digits), and a closing underscore. -/
def appMatchAt : List Char → Option (List Char)
  | '_' :: 'D' :: 'E' :: a :: b :: x :: y :: z :: '_' :: _ =>
    if isUpperAZ a && isUpperAZ b && isDigit09 x && isDigit09 y && isDigit09 z then
      some (['D', 'E', a, b, x, y, z])
    else none
  | _ => none

/-- The dashboard's station-identifier extraction (app.py lines 25-31):
search the raw station-code string for the underscore-anchored pattern. -/
def extract_station_id (s : String) : Option String :=
  (reSearch appMatchAt s.toList).map String.mk

/-- The static Berlin station directory of app.py (lines 16-22); its
entries coincide with the ingestion-side directory. -/
def STATION_NAMES (sid : String) : Option String :=
  if sid = "DEBE010" then some "Amrumer Straße (Wedding, городской фон)"
  else if sid = "DEBE034" then some "Nansenstraße (Neukölln, городской фон)"
  else if sid = "DEBE051" then some "Buch / Hobrechtsfelder Chaussee (Pankow, пригородный фон)"
  else if sid = "DEBE065" then some "Frankfurter Allee (Friedrichshain, транспортная станция)"
  else if sid = "DEBE068" then some "Brückenstraße (Mitte, городской фон)"
  else none

/-- One row of the persisted combined dataset as the dashboard loads
it: value after the app's own numeric coercion of line 51 (none =
missing or unparseable in the file), date after the to_datetime of line
50 (none = missing in the file). Derived columns start out empty. -/
structure Row where
  station : String
  pollutant : String
  value : Option ℚ
  date : Option Nat
  station_id : Option String := none
  station_name : Option String := none
deriving DecidableEq

/-- The dashboard's own value filter of line 55, applied independently
of ingestion: keep a row iff its coerced value is present and between 0
and 500. -/
def valueOkB : Option ℚ → Bool
  | some v => decide (0 ≤ v) && decide (v ≤ 500)
  | none => false

/-- Lines 61-64: map the short identifier through the directory, then
fill missing names from the identifier; a missing identifier leaves the
name missing (fillna fills nothing there). -/
def station_name_of (sid : Option String) : Option String :=
  match sid.bind STATION_NAMES with
  | some n => some n
  | none => sid

/-- load_data (app.py lines 39-66) after the required-column check and
the type coercions: drop rows whose coerced value is missing, negative
or above 500, then derive the short identifier and the display name
with its fallback. -/
def load_data (file : List Row) : List Row :=
  (file.filter fun r => valueOkB r.value).map fun r =>
    let sid := extract_station_id r.station
    { r with station_id := sid, station_name := station_name_of sid }

/-- The sidebar filter state: one pollutant, the selected station
names, and an inclusive date range. -/
structure Filters where
  pollutant_sel : String
  stations_sel : List String
  date_from : Nat
  date_to : Nat
deriving DecidableEq

/-- The station options of the sidebar multiselect (line 111): the
distinct non-missing display names. The widget also sorts them; every
claim consumes membership only, which sorting preserves. Line 119 makes
this same list the default selection. -/
def stationsList (df : List Row) : List String := (df.filterMap Row.station_name).dedup

/-- The row mask of lines 136-140: pollutant equality, station name
among the selected names (a missing name is in no list of names, as a
pandas isin over missing returns false), and date inside the inclusive
range (a missing date is never inside it). -/
def rowMask (f : Filters) (r : Row) : Bool :=
  (r.pollutant == f.pollutant_sel)
  && (match r.station_name with
      | some n => f.stations_sel.contains n
      | none => false)
  && (match r.date with
      | some d => decide (f.date_from ≤ d) && decide (d ≤ f.date_to)
      | none => false)

/-- The filtered subset of line 142. -/
def filterDf (df : List Row) (f : Filters) : List Row := df.filter (rowMask f)

/-- Arithmetic mean of a list of rationals. -/
def meanOf (l : List ℚ) : ℚ := l.sum / l.length

/-- The describe() table of line 156, restricted to the summary fields
a list model states directly. -/
structure Stats where
  count : Nat
  mean : ℚ
  minv : Option ℚ
  maxv : Option ℚ
deriving DecidableEq

/-- Descriptive statistics of the filtered values. -/
def describe (vals : List ℚ) : Stats :=
  { count := vals.length, mean := meanOf vals, minv := vals.min?, maxv := vals.max? }

/-- Mean value grouped by date, the time-series chart data of lines
176-181. -/
def timeSeries (df : List Row) : List (Nat × ℚ) :=
  ((df.filterMap Row.date).dedup).map fun d =>
    (d, meanOf ((df.filter fun r => r.date == some d).filterMap Row.value))

/-- Mean value grouped by station name, the bar-chart data of lines
198-203. -/
def byStationMean (df : List Row) : List (String × ℚ) :=
  ((df.filterMap Row.station_name).dedup).map fun n =>
    (n, meanOf ((df.filter fun r => r.station_name == some n).filterMap Row.value))

/-- What the page below the sidebar shows: either the empty-result
warning followed by st.stop (lines 144-146), or the views rendered from
the filtered subset. -/
inductive Outcome where
  | stoppedWithWarning
  | rendered (stats : Stats) (ts : List (Nat × ℚ)) (byStation : List (String × ℚ))
      (table : List Row)
deriving DecidableEq

/-- The page flow after the sidebar: stop with a warning when the
filtered subset is empty, else render the statistics table, the time
series, the station comparison and the data table from it. -/
def present (df : List Row) (f : Filters) : Outcome :=
  let dfF := filterDf df f
  if dfF.isEmpty then .stoppedWithWarning
  else .rendered (describe (dfF.filterMap Row.value)) (timeSeries dfF) (byStationMean dfF) dfF

end App

namespace Samples

/-- A raw row whose interval start is missing but whose value passes
the cleaning filter. -/
def rowNoStart : DataPrepare.Row :=
  { station := "DE/SPO.DEBE010_PM2", pollutant := "6001", value := some 10,
    datetime_start := none }

/-- A raw row with every column present and in range. -/
def rowGood : DataPrepare.Row :=
  { station := "DE/SPO.DEBE010_PM2", pollutant := "6001", value := some 10,
    datetime_start := some 1700000000 }

/-- A raw row whose value exceeds the plausibility bound. -/
def rowBig : DataPrepare.Row :=
  { station := "DE/SPO.DEBE034_PM2", pollutant := "6001", value := some 900,
    datetime_start := some 1700000000 }

/-- A dashboard input row whose raw station code matches no pattern. -/
def appRowNoMatch : App.Row :=
  { station := "garbage", pollutant := "6001", value := some 10, date := some 19000 }

/-- The previous row as load_data emits it. -/
def appRowNoMatchLoaded : App.Row :=
  { appRowNoMatch with station_id := none, station_name := none }

/-- A dashboard input row with an out-of-range value. -/
def appRowBig : App.Row :=
  { station := "DE/SPO.DE_DEBE010_PM2_dataGroup2", pollutant := "6001", value := some 900,
    date := some 19000 }

/-- A dashboard input row that survives loading. -/
def appRowGood : App.Row :=
  { station := "DE/SPO.DE_DEBE010_PM2_dataGroup2", pollutant := "6001", value := some 10,
    date := some 19000 }

/-- The previous row as load_data emits it. -/
def appRowGoodLoaded : App.Row :=
  { appRowGood with
    station_id := some "DEBE010",
    station_name := some "Amrumer Straße (Wedding, городской фон)" }

/-- An arbitrary filter selection. -/
def filtersNone : App.Filters :=
  { pollutant_sel := "6001", stations_sel := [], date_from := 0, date_to := 0 }

end Samples

/-! ### Decomposition lemmas for the two pipelines -/

/-- Every output row of the ingestion pipeline comes from an input row
that passed the value filter, with the derivation steps applied. -/
theorem mem_ingest {input : List DataPrepare.Row} {r : DataPrepare.Row}
    (h : r ∈ DataPrepare.ingest input) :
    ∃ r0 ∈ input, DataPrepare.valueOkB r0.value = true ∧
      r = DataPrepare.addStation (DataPrepare.addDates r0) := by
  unfold DataPrepare.ingest at h
  rw [List.mem_map] at h
  obtain ⟨a, ha, rfl⟩ := h
  rw [List.mem_filter] at ha
  obtain ⟨ha1, ha2⟩ := ha
  rw [List.mem_map] at ha1
  obtain ⟨r0, hr0, rfl⟩ := ha1
  exact ⟨r0, hr0, by simpa [DataPrepare.addDates] using ha2, rfl⟩

/-- Every row the dashboard keeps comes from a file row that passed the
dashboard's own value filter, with the derived columns filled in. -/
theorem mem_load_data {file : List App.Row} {r : App.Row} (h : r ∈ App.load_data file) :
    ∃ r0 ∈ file, App.valueOkB r0.value = true ∧
      r = { r0 with
            station_id := App.extract_station_id r0.station,
            station_name := App.station_name_of (App.extract_station_id r0.station) } := by
  unfold App.load_data at h
  rw [List.mem_map] at h
  obtain ⟨r0, hr0, rfl⟩ := h
  rw [List.mem_filter] at hr0
  exact ⟨r0, hr0.1, hr0.2, rfl⟩

/-! ### Claims -/

/-- C1: at the raw station code of the scenario, the ingestion
derivation yields no identifier at all (its dot-anchored pattern finds
no match in the string), while the presentation derivation yields
DEBE010, and both station directories resolve DEBE010 to the Amrumer
Straße name. The ingestion half contradicts the extraction function's
own docstring, which promises DEBE010 for exactly this string. -/
theorem C1_station_scenario_eval :
    DataPrepare.extract_station_id "DE/SPO.DE_DEBE010_PM2_dataGroup2" = none ∧
    App.extract_station_id "DE/SPO.DE_DEBE010_PM2_dataGroup2" = some "DEBE010" ∧
    DataPrepare.station_names "DEBE010" = some "Amrumer Straße (Wedding, городской фон)" ∧
    App.STATION_NAMES "DEBE010" = some "Amrumer Straße (Wedding, городской фон)" := by
  decide

/-- C2: every row the ingestion pipeline retains has a present value
between 0 and 500; an input row with a missing, negative or too-large
value has no output row carrying its input columns (dropped, never
clamped); and the input columns of every output row come verbatim from
some input row. -/
theorem C2_value_cleaning (input : List DataPrepare.Row) :
    (∀ r ∈ DataPrepare.ingest input, ∃ v : ℚ, r.value = some v ∧ 0 ≤ v ∧ v ≤ 500) ∧
    (∀ r ∈ input, DataPrepare.valueOkB r.value = false →
      ∀ r' ∈ DataPrepare.ingest input, DataPrepare.core r' ≠ DataPrepare.core r) ∧
    (∀ r' ∈ DataPrepare.ingest input, ∃ r ∈ input, DataPrepare.core r' = DataPrepare.core r) := by
  refine ⟨?_, ?_, ?_⟩
  · intro r hr
    obtain ⟨r0, _, hok, rfl⟩ := mem_ingest hr
    show ∃ v : ℚ, r0.value = some v ∧ 0 ≤ v ∧ v ≤ 500
    cases hv : r0.value with
    | none => rw [hv] at hok; simp [DataPrepare.valueOkB] at hok
    | some v =>
      rw [hv] at hok
      simp only [DataPrepare.valueOkB, Bool.and_eq_true, decide_eq_true_eq] at hok
      exact ⟨v, rfl, hok.1, hok.2⟩
  · intro r _ hbad r' hr' hcore
    obtain ⟨r0, _, hok, rfl⟩ := mem_ingest hr'
    have hc0 : DataPrepare.core (DataPrepare.addStation (DataPrepare.addDates r0)) =
        DataPrepare.core r0 := by
      simp [DataPrepare.core, DataPrepare.addStation, DataPrepare.addDates]
    rw [hc0] at hcore
    have hval : r0.value = r.value := congrArg (fun t => t.2.2.1) hcore
    exact absurd (hval ▸ hok) (by simp [hbad])
  · intro r' hr'
    obtain ⟨r0, hr0, _, rfl⟩ := mem_ingest hr'
    exact ⟨r0, hr0, by simp [DataPrepare.core, DataPrepare.addStation, DataPrepare.addDates]⟩

/-- Witness for C2 at a two-row input: the retained output row does not
carry the columns of the out-of-range input row. -/
theorem C2_value_cleaning_witness :
    DataPrepare.core (DataPrepare.addStation (DataPrepare.addDates Samples.rowGood)) ≠
      DataPrepare.core Samples.rowBig :=
  (C2_value_cleaning [Samples.rowGood, Samples.rowBig]).2.1 Samples.rowBig (by decide)
    (by decide) _ (by decide)

/-- C3 counterexample: one input row with a missing interval start and
an in-range value is retained by the cleaning step, and its date is
missing, so not every retained record has a non-null date. -/
theorem C3_null_date_cex :
    (DataPrepare.ingest [Samples.rowNoStart]).map DataPrepare.Row.date = [none] ∧
    (DataPrepare.ingest [Samples.rowNoStart]).length = 1 := by
  decide

/-- C3 amended: cleaning filters only on the value, so a retained
record's date is present exactly when its interval start was; in
particular every retained record with a present interval start has a
non-null date. -/
theorem C3_date_presence (input : List DataPrepare.Row) (r : DataPrepare.Row)
    (h : r ∈ DataPrepare.ingest input) :
    r.date.isSome = r.datetime_start.isSome := by
  obtain ⟨r0, _, _, rfl⟩ := mem_ingest h
  simp [DataPrepare.addStation, DataPrepare.addDates]

/-- Witness for C3's amended statement on a concrete retained row. -/
theorem C3_date_presence_witness :
    (DataPrepare.addStation (DataPrepare.addDates Samples.rowGood)).date.isSome =
      (DataPrepare.addStation (DataPrepare.addDates Samples.rowGood)).datetime_start.isSome :=
  C3_date_presence [Samples.rowGood] _ (by decide)

/-- C5: the dashboard's display name is the fixed directory string for
each of the five known identifiers, and falls back to the identifier
itself for any identifier outside the directory. -/
theorem C5_station_display :
    App.station_name_of (some "DEBE010") = some "Amrumer Straße (Wedding, городской фон)" ∧
    App.station_name_of (some "DEBE034") = some "Nansenstraße (Neukölln, городской фон)" ∧
    App.station_name_of (some "DEBE051") =
      some "Buch / Hobrechtsfelder Chaussee (Pankow, пригородный фон)" ∧
    App.station_name_of (some "DEBE065") =
      some "Frankfurter Allee (Friedrichshain, транспортная станция)" ∧
    App.station_name_of (some "DEBE068") = some "Brückenstraße (Mitte, городской фон)" ∧
    ∀ sid : String, App.STATION_NAMES sid = none → App.station_name_of (some sid) = some sid := by
  refine ⟨by decide, by decide, by decide, by decide, by decide, ?_⟩
  intro sid h
  unfold App.station_name_of
  rw [show (some sid).bind App.STATION_NAMES = none from h]

/-- Witness for C5's fallback half at an identifier outside the
directory. -/
theorem C5_station_display_witness :
    App.station_name_of (some "DEBE999") = some "DEBE999" :=
  C5_station_display.2.2.2.2.2 "DEBE999" (by decide)

/-- C8: a filter selection whose filtered subset is empty stops the
session with the warning outcome, and no view is rendered. -/
theorem C8_empty_filter_stops (df : List App.Row) (f : App.Filters)
    (h : App.filterDf df f = []) :
    App.present df f = App.Outcome.stoppedWithWarning ∧
    ∀ s ts bs tb, App.present df f ≠ App.Outcome.rendered s ts bs tb := by
  have hp : App.present df f = App.Outcome.stoppedWithWarning := by
    simp [App.present, h]
  refine ⟨hp, ?_⟩
  intro s ts bs tb hr
  rw [hp] at hr
  exact App.Outcome.noConfusion hr

/-- Witness for C8 at the empty dataset and an arbitrary selection. -/
theorem C8_empty_filter_stops_witness :
    App.present [] Samples.filtersNone = App.Outcome.stoppedWithWarning :=
  (C8_empty_filter_stops [] Samples.filtersNone rfl).1

/-- C9: a loaded row whose raw code matches no pattern keeps a missing
identifier and a missing name (the fallback fills nothing), fails every
filter mask whatever the station selection, and so belongs to no
filtered subset, hence to no rendered view. -/
theorem C9_unmatched_excluded (file : List App.Row) (r : App.Row)
    (h : r ∈ App.load_data file) (hm : App.extract_station_id r.station = none) :
    r.station_id = none ∧ r.station_name = none ∧
    ∀ f : App.Filters, App.rowMask f r = false ∧
      r ∉ App.filterDf (App.load_data file) f := by
  obtain ⟨r0, _, _, rfl⟩ := mem_load_data h
  have hsid : App.extract_station_id r0.station = none := hm
  refine ⟨by simp [hsid], by simp [hsid, App.station_name_of], ?_⟩
  intro f
  have hmask : App.rowMask f
      { r0 with
        station_id := App.extract_station_id r0.station,
        station_name := App.station_name_of (App.extract_station_id r0.station) } = false := by
    simp [App.rowMask, hsid, App.station_name_of]
  refine ⟨hmask, ?_⟩
  intro hmem
  rw [App.filterDf, List.mem_filter] at hmem
  exact absurd hmem.2 (by simp [hmask])

/-- Witness for C9 on a one-row file whose raw code matches nothing. -/
theorem C9_unmatched_excluded_witness :
    App.rowMask Samples.filtersNone Samples.appRowNoMatchLoaded = false ∧
    Samples.appRowNoMatchLoaded ∉
      App.filterDf (App.load_data [Samples.appRowNoMatch]) Samples.filtersNone :=
  (C9_unmatched_excluded [Samples.appRowNoMatch] Samples.appRowNoMatchLoaded (by decide)
    (by decide)).2.2 Samples.filtersNone

/-- C10: the dashboard's own load-time filter guarantees that every row
available to any view has a present value between 0 and 500, whatever
the persisted file contained. -/
theorem C10_app_value_bounds (file : List App.Row) (r : App.Row)
    (h : r ∈ App.load_data file) :
    r.value ≠ none ∧ ∀ v : ℚ, r.value = some v → 0 ≤ v ∧ v ≤ 500 := by
  obtain ⟨r0, _, hok, rfl⟩ := mem_load_data h
  show r0.value ≠ none ∧ ∀ v : ℚ, r0.value = some v → 0 ≤ v ∧ v ≤ 500
  cases hv : r0.value with
  | none => rw [hv] at hok; simp [App.valueOkB] at hok
  | some v =>
    rw [hv] at hok
    simp only [App.valueOkB, Bool.and_eq_true, decide_eq_true_eq] at hok
    refine ⟨by simp, ?_⟩
    intro w hw
    injection hw with hvw
    subst hvw
    exact hok

/-- Witness for C10 on a two-row file, one row out of range. -/
theorem C10_app_value_bounds_witness : (0 : ℚ) ≤ 10 ∧ (10 : ℚ) ≤ 500 :=
  (C10_app_value_bounds [Samples.appRowBig, Samples.appRowGood] Samples.appRowGoodLoaded
    (by decide)).2 10 (by decide)

/-- C6: the ingestion load is best-effort: it aborts exactly when every
file fails to read, and whenever it does not abort, every row of every
successfully read file reaches the combined table, tagged with its
source filename. -/
theorem C6_load_best_effort (files : List (String × Option (List DataPrepare.Row))) :
    ((DataPrepare.loadAll files).isOk = false ↔ ∀ p ∈ files, p.2 = none) ∧
    (∀ p ∈ files, ∀ rows : List DataPrepare.Row, p.2 = some rows →
      ∀ out, DataPrepare.loadAll files = .ok out →
        ∀ r ∈ rows, { r with source_file := p.1 } ∈ out) := by
  have hempty : DataPrepare.dfs files = [] ↔ ∀ p ∈ files, p.2 = none := by
    unfold DataPrepare.dfs
    rw [List.filterMap_eq_nil_iff]
    constructor
    · intro h p hp
      exact Option.map_eq_none'.mp (h p hp)
    · intro h p hp
      rw [h p hp]
      rfl
  constructor
  · constructor
    · intro hok
      rw [← hempty]
      cases hdf : DataPrepare.dfs files with
      | nil => rfl
      | cons a l =>
        unfold DataPrepare.loadAll at hok
        rw [hdf] at hok
        simp [Except.isOk, Except.toBool] at hok
    · intro hall
      unfold DataPrepare.loadAll
      rw [hempty.mpr hall]
      rfl
  · intro p hp rows hrows out hout r hr
    unfold DataPrepare.loadAll at hout
    by_cases hd : (DataPrepare.dfs files).isEmpty = true
    · rw [if_pos hd] at hout
      exact absurd hout (by simp)
    · rw [if_neg hd] at hout
      injection hout with hout'
      subst hout'
      rw [List.mem_flatten]
      refine ⟨rows.map (fun r => { r with source_file := p.1 }), ?_, ?_⟩
      · unfold DataPrepare.dfs
        rw [List.mem_filterMap]
        exact ⟨p, hp, by rw [hrows]; rfl⟩
      · exact List.mem_map_of_mem _ hr

/-- Witness for C6: an all-failing read list aborts, and in a mixed
list the surviving file's row reaches the output with its source tag. -/
theorem C6_load_best_effort_witness :
    (DataPrepare.loadAll [("a.parquet", none)]).isOk = false ∧
    { Samples.rowGood with source_file := "b.parquet" } ∈
      [{ Samples.rowGood with source_file := "b.parquet" }] := by
  constructor
  · exact (C6_load_best_effort [("a.parquet", none)]).1.mpr (by decide)
  · exact (C6_load_best_effort [("a.parquet", none), ("b.parquet", some [Samples.rowGood])]).2
      ("b.parquet", some [Samples.rowGood]) (by decide) [Samples.rowGood] rfl
      [{ Samples.rowGood with source_file := "b.parquet" }] (by rfl) Samples.rowGood
      (by decide)

/-- C7 counterexample: a column name that starts with the sampling
point marker and also contains pollutant is renamed to the station
column, so the contains-pollutant rule does not apply to every column
containing pollutant, as the claim states it. -/
theorem C7_rename_cex :
    DataPrepare.hasSub ("pollutant".toList) (DataPrepare.lowerL "SamplingPointPollutant") = true ∧
    DataPrepare.renameCol "SamplingPointPollutant" = "station" ∧
    DataPrepare.renameCol "SamplingPointPollutant" ≠ "pollutant" := by
  decide

/-- C7 amended: the renaming rules fire in order and the first match
wins: sampling-point columns become station; of the remaining columns,
those containing pollutant become pollutant; of the remaining, the
case-insensitive exact matches value, start and end become value,
datetime_start and datetime_end; a column matching no rule keeps its
name. -/
theorem C7_rename_rules (col : String) :
    (DataPrepare.hasPre ("samplingpoint".toList) (DataPrepare.lowerL col) = true →
      DataPrepare.renameCol col = "station") ∧
    (DataPrepare.hasPre ("samplingpoint".toList) (DataPrepare.lowerL col) = false →
      DataPrepare.hasSub ("pollutant".toList) (DataPrepare.lowerL col) = true →
      DataPrepare.renameCol col = "pollutant") ∧
    (DataPrepare.hasPre ("samplingpoint".toList) (DataPrepare.lowerL col) = false →
      DataPrepare.hasSub ("pollutant".toList) (DataPrepare.lowerL col) = false →
      DataPrepare.lowerL col = "value".toList →
      DataPrepare.renameCol col = "value") ∧
    (DataPrepare.hasPre ("samplingpoint".toList) (DataPrepare.lowerL col) = false →
      DataPrepare.hasSub ("pollutant".toList) (DataPrepare.lowerL col) = false →
      DataPrepare.lowerL col ≠ "value".toList →
      DataPrepare.lowerL col = "start".toList →
      DataPrepare.renameCol col = "datetime_start") ∧
    (DataPrepare.hasPre ("samplingpoint".toList) (DataPrepare.lowerL col) = false →
      DataPrepare.hasSub ("pollutant".toList) (DataPrepare.lowerL col) = false →
      DataPrepare.lowerL col ≠ "value".toList →
      DataPrepare.lowerL col ≠ "start".toList →
      DataPrepare.lowerL col = "end".toList →
      DataPrepare.renameCol col = "datetime_end") ∧
    (DataPrepare.hasPre ("samplingpoint".toList) (DataPrepare.lowerL col) = false →
      DataPrepare.hasSub ("pollutant".toList) (DataPrepare.lowerL col) = false →
      DataPrepare.lowerL col ≠ "value".toList →
      DataPrepare.lowerL col ≠ "start".toList →
      DataPrepare.lowerL col ≠ "end".toList →
      DataPrepare.renameCol col = col) := by
  refine ⟨?_, ?_, ?_, ?_, ?_, ?_⟩ <;> intros <;> simp_all [DataPrepare.renameCol]

/-! ### Round-trip lemmas for the two persisted outputs -/

theorem digVal_digChar (d : Nat) (h : d < 10) :
    DataPrepare.digVal (DataPrepare.digChar d) = d := by
  interval_cases d <;> rfl

theorem isDigit09_digChar (d : Nat) : isDigit09 (DataPrepare.digChar d) = true := by
  unfold DataPrepare.digChar
  split <;> decide

theorem bne_slash_of_digit {c : Char} (h : isDigit09 c = true) : (c != '/') = true := by
  simp only [isDigit09, Bool.and_eq_true, decide_eq_true_eq] at h
  simp only [bne_iff_ne, ne_eq]
  intro he
  subst he
  exact absurd h.1 (by decide)

theorem mem_natChars_digit (n : Nat) :
    ∀ c ∈ DataPrepare.natChars n, isDigit09 c = true := by
  induction n using Nat.strong_induction_on with
  | _ n ih =>
    rcases n with _ | m
    · intro c hc
      simp only [DataPrepare.natChars] at hc
      exact absurd hc (List.not_mem_nil c)
    · intro c hc
      simp only [DataPrepare.natChars] at hc
      rw [List.mem_append] at hc
      rcases hc with hc | hc
      · exact ih ((m + 1) / 10) (Nat.div_lt_self (Nat.succ_pos m) (by norm_num)) c hc
      · rw [List.mem_singleton] at hc
        subst hc
        exact isDigit09_digChar _

theorem mem_natToChars_digit (n : Nat) :
    ∀ c ∈ DataPrepare.natToChars n, isDigit09 c = true := by
  unfold DataPrepare.natToChars
  split
  · intro c hc
    rw [List.mem_singleton] at hc
    subst hc
    decide
  · exact mem_natChars_digit n

theorem natChars_ne_nil {n : Nat} (h : n ≠ 0) : DataPrepare.natChars n ≠ [] := by
  rcases n with _ | m
  · exact absurd rfl h
  · simp [DataPrepare.natChars]

theorem natToChars_ne_nil (n : Nat) : DataPrepare.natToChars n ≠ [] := by
  unfold DataPrepare.natToChars
  split
  · simp
  next h => exact natChars_ne_nil h

theorem foldl_natChars (n : Nat) :
    ∀ acc : Nat, (DataPrepare.natChars n).foldl (fun a c => a * 10 + DataPrepare.digVal c) acc =
      acc * 10 ^ (DataPrepare.natChars n).length + n := by
  induction n using Nat.strong_induction_on with
  | _ n ih =>
    rcases n with _ | m
    · intro acc
      simp [DataPrepare.natChars]
    · intro acc
      have hlt : (m + 1) / 10 < m + 1 := Nat.div_lt_self (Nat.succ_pos m) (by norm_num)
      rw [show DataPrepare.natChars (m + 1) =
        DataPrepare.natChars ((m + 1) / 10) ++ [DataPrepare.digChar ((m + 1) % 10)] from by
          simp [DataPrepare.natChars]]
      rw [List.foldl_append, ih ((m + 1) / 10) hlt acc, List.length_append]
      simp only [List.foldl_cons, List.foldl_nil, List.length_singleton]
      rw [digVal_digChar ((m + 1) % 10) (Nat.mod_lt _ (by norm_num)), pow_succ, ← mul_assoc]
      have hdm := Nat.div_add_mod (m + 1) 10
      generalize acc * 10 ^ (DataPrepare.natChars ((m + 1) / 10)).length = A
      omega

theorem decodeNat_natToChars (n : Nat) :
    DataPrepare.decodeNat (DataPrepare.natToChars n) = n := by
  unfold DataPrepare.natToChars DataPrepare.decodeNat
  split
  next h => subst h; rfl
  next h =>
    rw [foldl_natChars n 0]
    simp

theorem takeWhile_append_stop {p : Char → Bool} (l1 : List Char) (c : Char) (l2 : List Char)
    (h1 : ∀ x ∈ l1, p x = true) (hc : p c = false) :
    (l1 ++ c :: l2).takeWhile p = l1 ∧ (l1 ++ c :: l2).dropWhile p = c :: l2 := by
  induction l1 with
  | nil => simp [List.takeWhile_cons, List.dropWhile_cons, hc]
  | cons x xs ih =>
    have hx : p x = true := h1 x (List.mem_cons_self x xs)
    have hxs := ih fun y hy => h1 y (List.mem_cons_of_mem x hy)
    simp only [List.cons_append, List.takeWhile_cons, List.dropWhile_cons, hx, if_true]
    exact ⟨by rw [hxs.1], hxs.2⟩

theorem decodeVal_csvCellVal {v : ℚ} (hv : 0 ≤ v) :
    DataPrepare.decodeVal (DataPrepare.csvCellVal (some v)) = some v := by
  have hsplit := takeWhile_append_stop (p := fun d => d != '/')
    (DataPrepare.natToChars v.num.toNat) '/' (DataPrepare.natToChars v.den)
    (fun x hx => bne_slash_of_digit (mem_natToChars_digit _ x hx)) (by decide)
  obtain ⟨c, cs, hcell⟩ := List.exists_cons_of_ne_nil (natToChars_ne_nil v.num.toNat)
  rw [show DataPrepare.csvCellVal (some v) =
    DataPrepare.natToChars v.num.toNat ++ '/' :: DataPrepare.natToChars v.den from rfl]
  rw [hcell, List.cons_append]
  simp only [DataPrepare.decodeVal]
  rw [← List.cons_append, ← hcell, hsplit.1, hsplit.2, List.drop_succ_cons, List.drop_zero]
  rw [decodeNat_natToChars, decodeNat_natToChars]
  have hnum : ((v.num.toNat : ℚ)) = (v.num : ℚ) := by
    exact_mod_cast congrArg (fun z : ℤ => (z : ℚ))
      (Int.toNat_of_nonneg (Rat.num_nonneg.mpr hv))
  rw [hnum, Rat.num_div_den]

theorem reSearch_some_ne_nil {m : List Char → Option (List Char)}
    (hm : ∀ l r, m l = some r → r ≠ []) :
    ∀ l r, reSearch m l = some r → r ≠ [] := by
  intro l
  induction l with
  | nil =>
    intro r h
    rw [reSearch] at h
    exact absurd h (by simp)
  | cons c cs ih =>
    intro r h
    rw [reSearch] at h
    cases hmc : m (c :: cs) with
    | some t =>
      rw [hmc] at h
      have h2 : some t = some r := h
      injection h2 with h3
      subst h3
      exact hm _ _ hmc
    | none =>
      rw [hmc] at h
      have h2 : reSearch m cs = some r := h
      exact ih r h2

theorem prepMatchAt_some_ne_nil : ∀ l r, DataPrepare.prepMatchAt l = some r → r ≠ [] := by
  intro l r h
  unfold DataPrepare.prepMatchAt at h
  split at h
  · split at h
    · injection h with h'
      subst h'
      simp
    · exact absurd h (by simp)
  · exact absurd h (by simp)

theorem extract_station_id_ne_empty {s t : String}
    (h : DataPrepare.extract_station_id s = some t) : t.toList ≠ [] := by
  unfold DataPrepare.extract_station_id at h
  cases hr : reSearch DataPrepare.prepMatchAt s.toList with
  | none =>
    rw [hr] at h
    exact absurd h (by simp)
  | some l =>
    rw [hr] at h
    have h2 : some (String.mk l) = some t := h
    injection h2 with h3
    subst h3
    exact reSearch_some_ne_nil prepMatchAt_some_ne_nil _ _ hr

theorem decodeOptNat_csvCellNat (d : Option Nat) :
    DataPrepare.decodeOptNat (DataPrepare.csvCellNat d) = d := by
  cases d with
  | none => rfl
  | some n =>
    obtain ⟨c, cs, hc⟩ := List.exists_cons_of_ne_nil (natToChars_ne_nil n)
    simp only [DataPrepare.csvCellNat]
    rw [hc]
    simp only [DataPrepare.decodeOptNat]
    rw [← hc, decodeNat_natToChars]

theorem decodeOptStr_csvCellStr {s : Option String}
    (hne : ∀ t, s = some t → t.toList ≠ []) :
    DataPrepare.decodeOptStr (DataPrepare.csvCellStr s) = s := by
  cases s with
  | none => rfl
  | some t =>
    obtain ⟨c, cs, hc⟩ := List.exists_cons_of_ne_nil (hne t rfl)
    simp only [DataPrepare.csvCellStr]
    rw [hc]
    simp only [DataPrepare.decodeOptStr]
    rw [← hc]
    rfl

theorem csvTriple_toCsvRow {r : DataPrepare.Row}
    (hval : ∃ v : ℚ, r.value = some v ∧ 0 ≤ v)
    (hsid : ∀ t, r.station_id = some t → t.toList ≠ []) :
    DataPrepare.csvTriple (DataPrepare.toCsvRow r) = (r.station_id, r.date, r.value) := by
  obtain ⟨v, hv, hv0⟩ := hval
  show (DataPrepare.decodeOptStr (DataPrepare.csvCellStr r.station_id),
    DataPrepare.decodeOptNat (DataPrepare.csvCellNat r.date),
    DataPrepare.decodeVal (DataPrepare.csvCellVal r.value)) =
    (r.station_id, r.date, r.value)
  rw [decodeOptStr_csvCellStr hsid, decodeOptNat_csvCellNat, hv, decodeVal_csvCellVal hv0]

/-- C4: one ingestion run writes the same table to both outputs:
loading the text output and the columnar output yields the same row
count and the same (station_id, date, value) triples, in the same
order. The text side goes through the cell encoding and back. -/
theorem C4_outputs_roundtrip (input : List DataPrepare.Row) :
    DataPrepare.read_csv_triples (DataPrepare.to_csv (DataPrepare.ingest input)) =
      DataPrepare.read_parquet_triples (DataPrepare.to_parquet (DataPrepare.ingest input)) ∧
    (DataPrepare.to_csv (DataPrepare.ingest input)).length =
      (DataPrepare.to_parquet (DataPrepare.ingest input)).length := by
  constructor
  · unfold DataPrepare.read_csv_triples DataPrepare.to_csv DataPrepare.read_parquet_triples
      DataPrepare.to_parquet
    rw [List.map_map]
    apply List.map_congr_left
    intro r hr
    obtain ⟨r0, _, hok, rfl⟩ := mem_ingest hr
    refine csvTriple_toCsvRow ?_ ?_
    · show ∃ v : ℚ, r0.value = some v ∧ 0 ≤ v
      cases hv : r0.value with
      | none =>
        rw [hv] at hok
        simp [DataPrepare.valueOkB] at hok
      | some v =>
        rw [hv] at hok
        simp only [DataPrepare.valueOkB, Bool.and_eq_true, decide_eq_true_eq] at hok
        exact ⟨v, rfl, hok.1⟩
    · intro t ht
      have ht' : DataPrepare.extract_station_id r0.station = some t := ht
      exact extract_station_id_ne_empty ht'
  · simp [DataPrepare.to_csv, DataPrepare.to_parquet]

/-- Witness for C7's amended rules: one concrete column per rule. -/
theorem C7_rename_rules_witness :
    DataPrepare.renameCol "Samplingpoint_ID" = "station" ∧
    DataPrepare.renameCol "AirPollutantCode" = "pollutant" ∧
    DataPrepare.renameCol "Value" = "value" ∧
    DataPrepare.renameCol "Start" = "datetime_start" ∧
    DataPrepare.renameCol "End" = "datetime_end" ∧
    DataPrepare.renameCol "Unit" = "Unit" :=
  ⟨(C7_rename_rules "Samplingpoint_ID").1 (by decide),
   (C7_rename_rules "AirPollutantCode").2.1 (by decide) (by decide),
   (C7_rename_rules "Value").2.2.1 (by decide) (by decide) (by decide),
   (C7_rename_rules "Start").2.2.2.1 (by decide) (by decide) (by decide) (by decide),
   (C7_rename_rules "End").2.2.2.2.1 (by decide) (by decide) (by decide) (by decide) (by decide),
   (C7_rename_rules "Unit").2.2.2.2.2 (by decide) (by decide) (by decide) (by decide) (by decide)⟩

end AirQuality
